import Mathlib

/-!
Shallow embedding of `src/main.go` of Ferguzz/gl_textures: a single-file
OpenGL program that renders one textured quad, optionally spinning, inside
a GLFW frame loop.  GPU-side state (compile/link status, decoded image
dimensions) is external to the program, so the embedded functions take it
as explicit parameters; GL calls whose only effect is on the GPU are
recorded as command traces.  Go `float64`/`float32` arithmetic on the spin
accumulator is modelled with exact rationals (the per-frame increment
`0.0005` is exactly `1/2000`).
-/

/-! ## GL enumeration constants (values of the `gl` package constants used) -/

def GL_TEXTURE_2D : Nat := 3553
def GL_RGBA : Nat := 6408
def GL_UNSIGNED_BYTE : Nat := 5121
def GL_UNSIGNED_SHORT : Nat := 5123
def GL_TEXTURE0 : Nat := 33984
def GL_TEXTURE1 : Nat := 33985
def GL_TEXTURE_MIN_FILTER : Nat := 10241
def GL_TEXTURE_MAG_FILTER : Nat := 10240
def GL_LINEAR : Nat := 9729
def GL_TRIANGLE_STRIP : Nat := 5
def GL_VERTEX_SHADER : Nat := 35633
def GL_FRAGMENT_SHADER : Nat := 35632

/-! ## Shader compilation (`loadShader`, src/main.go lines 65-75) -/

/-- A GL shader unit as the program sees it: the stage enum it was created
with and the source string attached to it. -/
structure Shader where
  shaderType : Nat
  source : String
deriving DecidableEq

/-- Embedding of `loadShader` (src/main.go lines 65-75).  The GPU compile
status returned by `shader.Get(gl.COMPILE_STATUS)` is external input, passed
as `compileStatus`.  When it is `0` the function returns the shader together
with the error `"Shader (<source>) did not compile."` (built by
`fmt.Sprintf("Shader (%v) did not compile.", source)`); otherwise it returns
the shader and no error.  Note the error text interpolates only the source,
not the stage. -/
def loadShader (shaderType : Nat) (source : String) (compileStatus : Int) :
    Shader × Option String :=
  let shader : Shader := ⟨shaderType, source⟩
  if compileStatus = 0 then
    (shader, some ("Shader (" ++ source ++ ") did not compile."))
  else
    (shader, none)

/-! ## Program construction (src/main.go lines 197-203) -/

/-- The linked shader program as built in `main`: both attached units, the
`BindFragDataLocation(0, "outColor")` association, and whether `Use()` has
been called on it. -/
structure Program where
  vertexUnit : Shader
  fragmentUnit : Shader
  fragDataColorNumber : Nat
  fragDataName : String
  used : Bool
deriving DecidableEq

/-- Embedding of the program-construction block in `main` (src/main.go lines
197-203): `CreateProgram`, `AttachShader` twice,
`BindFragDataLocation(0, "outColor")`, `Link()`, `Use()`.  The GPU's link
status is external input `linkStatus`; the source contains no
`Get(gl.LINK_STATUS)` call and no branch on it, so the function ignores
`linkStatus` and always returns the program with no error, already in use. -/
def linkProgram (vs fs : Shader) (linkStatus : Bool) : Program × Option String :=
  (⟨vs, fs, 0, "outColor", true⟩, none)

/-! ## Geometry (src/main.go lines 153-163, 205-211, 238) -/

/-- The interleaved vertex data uploaded to the `ARRAY_BUFFER`
(src/main.go line 153): per vertex, 2 position floats then 2
texture-coordinate floats. -/
def vertices : List ℚ :=
  [-1/2, -1/2, 0, 1,  1/2, -1/2, 1, 1,  -1/2, 1/2, 0, 0,  1/2, 1/2, 1, 0]

/-- The index data uploaded to the `ELEMENT_ARRAY_BUFFER`
(src/main.go line 154). -/
def elements : List Nat := [0, 1, 2, 3]

/-- Byte size passed to `gl.BufferData` for the vertex buffer:
`len(vertices)*4` (src/main.go line 160). -/
def vboBytes : Nat := vertices.length * 4

/-- Byte size passed to `gl.BufferData` for the index buffer:
`len(elements)*2` (src/main.go line 163); indices are `GLushort`,
2 bytes wide. -/
def eboBytes : Nat := elements.length * 2

/-- Width in bytes of one index (`gl.GLushort`). -/
def indexWidthBytes : Nat := 2

/-- The stride passed to both `AttribPointer` calls: `4*4` bytes
(src/main.go lines 206 and 210). -/
def vertexStrideBytes : Nat := 4 * 4

/-- Number of vertices in the interleaved buffer: 4 floats per vertex. -/
def numVertices : Nat := vertices.length / 4

/-- The position attribute of vertex `i`: 2 floats at byte offset 0 of the
16-byte stride (src/main.go line 206). -/
def position (i : Nat) : ℚ × ℚ :=
  (vertices.getD (4 * i) 0, vertices.getD (4 * i + 1) 0)

/-- The texture-coordinate attribute of vertex `i`: 2 floats at byte offset
`2*4` of the 16-byte stride (src/main.go line 210). -/
def texCoord (i : Nat) : ℚ × ℚ :=
  (vertices.getD (4 * i + 2) 0, vertices.getD (4 * i + 3) 0)

/-- The per-frame draw call (src/main.go line 238):
`gl.DrawElements(gl.TRIANGLE_STRIP, 4, gl.UNSIGNED_SHORT, 0)` as
(mode, index count, index type). -/
def drawCall : Nat × Nat × Nat := (GL_TRIANGLE_STRIP, 4, GL_UNSIGNED_SHORT)

/-! ## Texture loading (`loadTextureFromImage`, src/main.go lines 101-114,
and its call sites with the filter setup, lines 169-183) -/

/-- GL commands issued during texture setup. -/
inductive GLCmd where
  | genTexture
  | activeTexture (unit : Nat)
  | bindTexture2D
  | texImage2D (level : Nat) (internalFormat : Nat) (w h : Int) (border : Nat)
      (srcFormat : Nat) (componentType : Nat)
  | texParameteri (target : Nat) (pname : Nat) (value : Nat)
deriving DecidableEq

/-- Embedding of the successful path of `loadTextureFromImage`
(src/main.go lines 101-114) as the trace of GL commands it issues, given the
decoded image's dimensions `w × h` (from the image-decoding collaborator)
and the texture unit enum `unit` (the `texture_id` argument):
`gl.GenTexture()`, `gl.ActiveTexture(texture_id)`,
`texture.Bind(gl.TEXTURE_2D)`, and
`gl.TexImage2D(gl.TEXTURE_2D, 0, gl.RGBA, w, h, 0, gl.RGBA,
gl.UNSIGNED_BYTE, image.Pix)`. -/
def loadTextureTrace (w h : Int) (unit : Nat) : List GLCmd :=
  [GLCmd.genTexture, GLCmd.activeTexture unit, GLCmd.bindTexture2D,
   GLCmd.texImage2D 0 GL_RGBA w h 0 GL_RGBA GL_UNSIGNED_BYTE]

/-- Embedding of the texture-setup block of `main` (src/main.go lines
169-183): load the first image on texture unit `gl.TEXTURE0`, set
min/mag filters to `gl.LINEAR`, then the same for the second image on
`gl.TEXTURE1`.  `w1 × h1` and `w2 × h2` are the two decoded images'
dimensions. -/
def textureSetupTrace (w1 h1 w2 h2 : Int) : List GLCmd :=
  loadTextureTrace w1 h1 GL_TEXTURE0 ++
  [GLCmd.texParameteri GL_TEXTURE_2D GL_TEXTURE_MIN_FILTER GL_LINEAR,
   GLCmd.texParameteri GL_TEXTURE_2D GL_TEXTURE_MAG_FILTER GL_LINEAR] ++
  loadTextureTrace w2 h2 GL_TEXTURE1 ++
  [GLCmd.texParameteri GL_TEXTURE_2D GL_TEXTURE_MIN_FILTER GL_LINEAR,
   GLCmd.texParameteri GL_TEXTURE_2D GL_TEXTURE_MAG_FILTER GL_LINEAR]

/-! ## Projection setup (src/main.go line 219) -/

/-- The aspect argument of `glam.Perspective(45, 640/480, 1, 10)`
(src/main.go line 219).  In Go, `640/480` is a constant expression over
untyped integer constants, so it is evaluated with integer division before
any conversion to a floating-point parameter type. -/
def goAspect : ℚ := ((640 / 480 : ℤ) : ℚ)

/-- The four arguments passed to `glam.Perspective` at startup
(src/main.go line 219): vertical field of view, aspect, near, far. -/
def perspectiveArgs : ℚ × ℚ × ℚ × ℚ := (45, goAspect, 1, 10)

/-! ## Transform state and the frame loop (src/main.go lines 48, 54-63,
218-242) -/

/-- The model matrix as the program computes it: `glam.Identity()`
(src/main.go line 218) or `glam.Rotation(float32(c*math.Pi),
glam.Vec3{0,0,1})` (line 230), recorded here by the coefficient `c` of π,
i.e. the value of `spinCount` used in the call. -/
inductive ModelMatrix where
  | identity
  | rotationZ (piCoeff : ℚ)
deriving DecidableEq

/-- The coefficient of π in the rotation angle of a model matrix: the code
passes `float32(spinCount*math.Pi)` to `glam.Rotation`, so the angle in
radians is `spinAngleCoeff m * π` (and `glam.Identity()` rotates by 0). -/
def spinAngleCoeff : ModelMatrix → ℚ
  | ModelMatrix.identity => 0
  | ModelMatrix.rotationZ c => c

/-- The mutable state of `main`'s frame loop together with the package-level
`rotate` flag and the window's should-close flag: `rotate` (line 48),
`spinCount` (line 222), `modelMat` (line 218), GLFW's should-close flag
(set by `SetShouldClose(true)`, read by `window.ShouldClose()`), whether the
`for` loop's condition has observed should-close and exited (`terminated`),
the number of `gl.DrawElements` calls issued (`draws`), and the sequence of
values uploaded to the `model` uniform (`modelUploads`). -/
structure GlobalState where
  rotate : Bool
  spinCount : ℚ
  modelMat : ModelMatrix
  shouldClose : Bool
  terminated : Bool
  draws : Nat
  modelUploads : List ModelMatrix
deriving DecidableEq

/-- The state at entry to the frame loop: `rotate = true` (line 48),
`spinCount = 0` (line 222), `modelMat = glam.Identity()` (line 218), the
window not closing, the loop not exited, no draw calls issued yet. -/
def initialState : GlobalState :=
  ⟨true, 0, ModelMatrix.identity, false, false, 0, []⟩

/-- The per-frame transform step (src/main.go lines 229-232): if `rotate`,
set the model matrix to a rotation about Z by `spinCount * π` and then
advance `spinCount` by `0.0005 = 1/2000`; otherwise change nothing. -/
def tick (s : GlobalState) : GlobalState :=
  if s.rotate then
    { s with modelMat := ModelMatrix.rotationZ s.spinCount,
             spinCount := s.spinCount + 1/2000 }
  else s

/-- One frame's drawing work (src/main.go lines 225-240): clear, run the
transform step, upload the (possibly unchanged) `modelMat` to the `model`
uniform (line 233, outside the `if rotate` block), upload the view matrix,
issue the indexed draw call, and swap buffers.  Recorded effects: the
transform step, the appended model upload, and the draw-call count. -/
def drawFrame (s : GlobalState) : GlobalState :=
  let t := tick s
  { t with modelUploads := t.modelUploads ++ [t.modelMat],
           draws := t.draws + 1 }

/-- The logical keys `keyCallback` distinguishes (src/main.go lines 56-61):
escape and Q request close, R toggles rotation, anything else is ignored. -/
inductive Key where
  | escape
  | q
  | r
  | other
deriving DecidableEq

/-- GLFW key actions as seen by `keyCallback`. -/
inductive KeyAction where
  | press
  | release
  | rep
deriving DecidableEq

/-- Embedding of `keyCallback` (src/main.go lines 54-63): on a press of
escape or Q it calls `window.SetShouldClose(true)`; on a press of R it flips
the package-level `rotate` flag; everything else is a no-op. -/
def keyCallback (key : Key) (action : KeyAction) (s : GlobalState) : GlobalState :=
  if action = KeyAction.press then
    match key with
    | Key.escape => { s with shouldClose := true }
    | Key.q => { s with shouldClose := true }
    | Key.r => { s with rotate := !s.rotate }
    | Key.other => s
  else s

/-- `glfw.PollEvents()` (src/main.go line 241): deliver the pending key
events of this iteration to `keyCallback`, in order. -/
def pollEvents (evts : List (Key × KeyAction)) (s : GlobalState) : GlobalState :=
  evts.foldl (fun st e => keyCallback e.1 e.2 st) s

/-- One check of the frame loop's condition followed by its body
(src/main.go lines 224-242): if `window.ShouldClose()` the loop exits
(recorded by `terminated := true`; the deferred teardown then runs);
otherwise the frame is drawn and presented and `glfw.PollEvents()`
dispatches this iteration's input events. -/
def loopIter (evts : List (Key × KeyAction)) (s : GlobalState) : GlobalState :=
  if s.shouldClose then { s with terminated := true }
  else pollEvents evts (drawFrame s)

/-- The frame loop run for `n` condition-checks, with `events k` the key
events pending at iteration `k`'s `glfw.PollEvents()`. -/
def loopRun (events : Nat → List (Key × KeyAction)) (s : GlobalState) :
    Nat → GlobalState
  | 0 => s
  | n + 1 => loopIter (events n) (loopRun events s n)

/-- The spec's frame-loop state machine, read off the embedded state:
`Terminated` once the loop's condition has observed should-close and
exited, `ClosingRequested` once should-close is set but the condition has
not yet been re-checked, `Running` otherwise. -/
inductive LoopPhase where
  | Running
  | ClosingRequested
  | Terminated
deriving DecidableEq

/-- The frame-loop phase of a state. -/
def phase (s : GlobalState) : LoopPhase :=
  if s.terminated then LoopPhase.Terminated
  else if s.shouldClose then LoopPhase.ClosingRequested
  else LoopPhase.Running

/-- Concrete event stream used to exercise the loop: a quit key (escape)
pressed during the first iteration's poll, nothing afterwards. -/
def quitAtZero : Nat → List (Key × KeyAction) :=
  fun n => if n = 0 then [(Key.escape, KeyAction.press)] else []

/-! ## Helper lemmas -/

theorem tick_rotate (s : GlobalState) : (tick s).rotate = s.rotate := by
  unfold tick; split <;> rfl

theorem tick_draws (s : GlobalState) : (tick s).draws = s.draws := by
  unfold tick; split <;> rfl

theorem tick_shouldClose (s : GlobalState) : (tick s).shouldClose = s.shouldClose := by
  unfold tick; split <;> rfl

theorem tick_terminated (s : GlobalState) : (tick s).terminated = s.terminated := by
  unfold tick; split <;> rfl

theorem tick_of_rotate_false (s : GlobalState) (h : s.rotate = false) : tick s = s := by
  unfold tick; simp [h]

theorem tick_of_rotate_true (s : GlobalState) (h : s.rotate = true) :
    tick s = { s with modelMat := ModelMatrix.rotationZ s.spinCount,
                      spinCount := s.spinCount + 1/2000 } := by
  unfold tick; simp [h]

theorem tick_iterate_rotate (s : GlobalState) (N : Nat) :
    (tick^[N] s).rotate = s.rotate := by
  induction N with
  | zero => rfl
  | succ n ih => rw [Function.iterate_succ_apply', tick_rotate, ih]

theorem tick_iterate_of_rotate_false (s : GlobalState) (h : s.rotate = false) (N : Nat) :
    tick^[N] s = s := by
  induction N with
  | zero => rfl
  | succ n ih => rw [Function.iterate_succ_apply', ih, tick_of_rotate_false s h]

theorem tick_iterate_spinCount_of_rotate_true (s : GlobalState) (h : s.rotate = true) (N : Nat) :
    (tick^[N] s).spinCount = s.spinCount + N * (1/2000 : ℚ) := by
  induction N with
  | zero => simp
  | succ n ih =>
    have hr : (tick^[n] s).rotate = true := (tick_iterate_rotate s n).trans h
    rw [Function.iterate_succ_apply', tick_of_rotate_true _ hr]
    show (tick^[n] s).spinCount + 1/2000 = _
    rw [ih]
    push_cast
    ring

theorem drawFrame_rotate (s : GlobalState) : (drawFrame s).rotate = s.rotate :=
  tick_rotate s

theorem drawFrame_shouldClose (s : GlobalState) :
    (drawFrame s).shouldClose = s.shouldClose :=
  tick_shouldClose s

theorem drawFrame_terminated (s : GlobalState) :
    (drawFrame s).terminated = s.terminated :=
  tick_terminated s

theorem drawFrame_draws (s : GlobalState) : (drawFrame s).draws = s.draws + 1 := by
  show (tick s).draws + 1 = s.draws + 1
  rw [tick_draws]

theorem drawFrame_of_rotate_false (s : GlobalState) (h : s.rotate = false) :
    (drawFrame s).modelMat = s.modelMat ∧
    (drawFrame s).modelUploads = s.modelUploads ++ [s.modelMat] := by
  unfold drawFrame
  rw [tick_of_rotate_false s h]
  exact ⟨rfl, rfl⟩

theorem keyCallback_shouldClose_mono (k : Key) (a : KeyAction) (s : GlobalState)
    (h : s.shouldClose = true) : (keyCallback k a s).shouldClose = true := by
  unfold keyCallback
  split
  · cases k <;> simp [h]
  · exact h

theorem keyCallback_draws (k : Key) (a : KeyAction) (s : GlobalState) :
    (keyCallback k a s).draws = s.draws := by
  unfold keyCallback
  split
  · cases k <;> rfl
  · rfl

theorem keyCallback_terminated (k : Key) (a : KeyAction) (s : GlobalState) :
    (keyCallback k a s).terminated = s.terminated := by
  unfold keyCallback
  split
  · cases k <;> rfl
  · rfl

theorem pollEvents_cons (e : Key × KeyAction) (evts : List (Key × KeyAction))
    (s : GlobalState) :
    pollEvents (e :: evts) s = pollEvents evts (keyCallback e.1 e.2 s) := rfl

theorem pollEvents_shouldClose_mono (evts : List (Key × KeyAction)) (s : GlobalState)
    (h : s.shouldClose = true) : (pollEvents evts s).shouldClose = true := by
  induction evts generalizing s with
  | nil => exact h
  | cons e rest ih =>
    rw [pollEvents_cons]
    exact ih _ (keyCallback_shouldClose_mono e.1 e.2 s h)

theorem pollEvents_draws (evts : List (Key × KeyAction)) (s : GlobalState) :
    (pollEvents evts s).draws = s.draws := by
  induction evts generalizing s with
  | nil => rfl
  | cons e rest ih =>
    rw [pollEvents_cons, ih, keyCallback_draws]

theorem pollEvents_terminated (evts : List (Key × KeyAction)) (s : GlobalState) :
    (pollEvents evts s).terminated = s.terminated := by
  induction evts generalizing s with
  | nil => rfl
  | cons e rest ih =>
    rw [pollEvents_cons, ih, keyCallback_terminated]

theorem pollEvents_quit (evts : List (Key × KeyAction)) (s : GlobalState)
    (h : (Key.escape, KeyAction.press) ∈ evts ∨ (Key.q, KeyAction.press) ∈ evts) :
    (pollEvents evts s).shouldClose = true := by
  induction evts generalizing s with
  | nil => simp at h
  | cons e rest ih =>
    rw [pollEvents_cons]
    rcases h with h | h
    · rcases List.mem_cons.mp h with he | hrest
      · apply pollEvents_shouldClose_mono
        rw [← he]
        rfl
      · exact ih _ (Or.inl hrest)
    · rcases List.mem_cons.mp h with he | hrest
      · apply pollEvents_shouldClose_mono
        rw [← he]
        rfl
      · exact ih _ (Or.inr hrest)

theorem loopIter_closed (evts : List (Key × KeyAction)) (s : GlobalState)
    (h : s.shouldClose = true) :
    loopIter evts s = { s with terminated := true } := by
  unfold loopIter
  simp [h]

theorem loopIter_open (evts : List (Key × KeyAction)) (s : GlobalState)
    (h : s.shouldClose = false) :
    loopIter evts s = pollEvents evts (drawFrame s) := by
  unfold loopIter
  simp [h]

theorem loopRun_frozen (events : Nat → List (Key × KeyAction)) (s0 : GlobalState)
    (n : Nat) (h : (loopRun events s0 n).shouldClose = true) (d : Nat) :
    (loopRun events s0 (n + d)).draws = (loopRun events s0 n).draws ∧
    (loopRun events s0 (n + d)).shouldClose = true := by
  induction d with
  | zero => exact ⟨rfl, h⟩
  | succ d ih =>
    show (loopIter (events (n + d)) (loopRun events s0 (n + d))).draws = _ ∧
         (loopIter (events (n + d)) (loopRun events s0 (n + d))).shouldClose = true
    rw [loopIter_closed _ _ ih.2]
    exact ⟨ih.1, ih.2⟩

theorem phase_running_iff (s : GlobalState) :
    phase s = LoopPhase.Running ↔ (s.terminated = false ∧ s.shouldClose = false) := by
  unfold phase
  cases ht : s.terminated <;> cases hsc : s.shouldClose <;> simp

theorem drawFrame_of_rotate_true (s : GlobalState) (h : s.rotate = true) :
    drawFrame s =
      { s with modelMat := ModelMatrix.rotationZ s.spinCount,
               spinCount := s.spinCount + 1/2000,
               draws := s.draws + 1,
               modelUploads := s.modelUploads ++ [ModelMatrix.rotationZ s.spinCount] } := by
  unfold drawFrame
  rw [tick_of_rotate_true s h]

/-- The sequence of values the running loop has uploaded to the `model`
uniform after `N` rotation-enabled frames starting from `spinCount = 0`:
frame `k+1` uploads the rotation with π-coefficient `k * (1/2000)`. -/
def uploadsUpTo (N : Nat) : List ModelMatrix :=
  (List.range N).map (fun k : Nat => ModelMatrix.rotationZ ((k : ℚ) * (1/2000)))

theorem uploadsUpTo_succ (n : Nat) :
    uploadsUpTo (n + 1) =
      uploadsUpTo n ++ [ModelMatrix.rotationZ ((n : ℚ) * (1/2000))] := by
  unfold uploadsUpTo
  rw [List.range_succ, List.map_append]
  rfl

theorem drawFrame_run (N : Nat) :
    (drawFrame^[N] initialState).rotate = true ∧
    (drawFrame^[N] initialState).spinCount = N * (1/2000 : ℚ) ∧
    (drawFrame^[N] initialState).modelUploads = uploadsUpTo N := by
  induction N with
  | zero => exact ⟨rfl, by norm_num [initialState], rfl⟩
  | succ n ih =>
    obtain ⟨hr, hs, hu⟩ := ih
    rw [Function.iterate_succ_apply', drawFrame_of_rotate_true _ hr]
    refine ⟨hr, ?_, ?_⟩
    · show (drawFrame^[n] initialState).spinCount + 1/2000 = _
      rw [hs]
      push_cast
      ring
    · show (drawFrame^[n] initialState).modelUploads ++
          [ModelMatrix.rotationZ (drawFrame^[n] initialState).spinCount] = _
      rw [hu, hs, uploadsUpTo_succ]

theorem drawFrame_iterate_norot (s : GlobalState) (h : s.rotate = false) (N : Nat) :
    (drawFrame^[N] s).modelMat = s.modelMat ∧ (drawFrame^[N] s).rotate = false := by
  induction N with
  | zero => exact ⟨rfl, h⟩
  | succ n ih =>
    rw [Function.iterate_succ_apply']
    exact ⟨((drawFrame_of_rotate_false _ ih.2).1).trans ih.1,
           (drawFrame_rotate _).trans ih.2⟩

/-! ## Claim theorems -/

/-- Claim C1: over any number `N` of per-frame ticks, the spin accumulator
is unchanged when `rotate` is false, and equals its initial value plus
`N * 0.0005` when `rotate` is true throughout (a tick never changes the
flag, so holding at the start is holding throughout); in particular,
starting from the program's initial state (`rotate = true`,
`spinCount = 0`), after exactly 2000 ticks the accumulator is 1. -/
theorem tick_spin_accumulator (s : GlobalState) (N : Nat) :
    (s.rotate = false → (tick^[N] s).spinCount = s.spinCount) ∧
    (s.rotate = true → (tick^[N] s).spinCount = s.spinCount + N * (1/2000 : ℚ)) ∧
    (tick^[2000] initialState).spinCount = 1 := by
  refine ⟨fun h => by rw [tick_iterate_of_rotate_false s h N],
          fun h => tick_iterate_spinCount_of_rotate_true s h N, ?_⟩
  rw [tick_iterate_spinCount_of_rotate_true initialState rfl 2000]
  norm_num [initialState]

/-- Witness for C1: concrete runs of the tick function, two disabled ticks
leaving the accumulator at 0 and three enabled ticks yielding `3/2000`. -/
theorem tick_spin_accumulator_check :
    (tick^[2] { initialState with rotate := false }).spinCount = 0 ∧
    (tick^[3] initialState).spinCount = 3/2000 := by
  constructor
  · exact ((tick_spin_accumulator { initialState with rotate := false } 2).1 rfl).trans rfl
  · exact ((tick_spin_accumulator initialState 3).2.1 rfl).trans (by norm_num [initialState])

/-- Counterexample for claim C2: the program-construction step of `main`
evaluated with a false link status still reports no error (the source never
reads the link status), refuting "a false status is reported as an error
rather than silently proceeding to use the program". -/
theorem link_status_false_still_no_error :
    (linkProgram ⟨GL_VERTEX_SHADER, "vsrc"⟩ ⟨GL_FRAGMENT_SHADER, "fsrc"⟩ false).2 = none ∧
    (linkProgram ⟨GL_VERTEX_SHADER, "vsrc"⟩ ⟨GL_FRAGMENT_SHADER, "fsrc"⟩ false).1.used = true :=
  ⟨rfl, rfl⟩

/-- Claim C2 as amended: after attaching the vertex and fragment units,
binding `outColor` to color number 0 and linking, the link status is never
inspected: the step reports no error and proceeds to use the program
regardless of the link status. -/
theorem link_never_fails (vs fs : Shader) (linkStatus : Bool) :
    (linkProgram vs fs linkStatus).2 = none ∧
    (linkProgram vs fs linkStatus).1 =
      ⟨vs, fs, 0, "outColor", true⟩ :=
  ⟨rfl, rfl⟩

/-- Counterexample for claim C3: the compile-failure diagnostic is the same
string for the vertex and the fragment stage on the same source, so it does
not contain the shader stage; concretely it is
`"Shader (bad shader source) did not compile."`, which names only the
source. -/
theorem compile_error_lacks_stage :
    (loadShader GL_VERTEX_SHADER "bad shader source" 0).2 =
      (loadShader GL_FRAGMENT_SHADER "bad shader source" 0).2 ∧
    (loadShader GL_VERTEX_SHADER "bad shader source" 0).2 =
      some ("Shader (" ++ "bad shader source" ++ ") did not compile.") :=
  ⟨rfl, rfl⟩

/-- Claim C3 as amended: for every shader stage and source string, when the
compile status is 0 the compile operation returns an error whose diagnostic
contains the offending source (but not the shader stage); when the compile
status is nonzero it returns the shader unit with no error. -/
theorem compile_error_contains_source (ty : Nat) (src : String) (st : Int) :
    (st = 0 →
      (loadShader ty src st).2 =
        some ("Shader (" ++ src ++ ") did not compile.") ∧
      ∃ pre post, ("Shader (" ++ src ++ ") did not compile.") = pre ++ src ++ post) ∧
    (st ≠ 0 → (loadShader ty src st).2 = none) := by
  constructor
  · intro h
    refine ⟨?_, "Shader (", ") did not compile.", rfl⟩
    unfold loadShader
    simp [h]
  · intro h
    unfold loadShader
    simp [h]

/-- Witness for C3's amended theorem: the vertex stage on a concrete bad
source with compile status 0 yields the source-bearing diagnostic, and with
status 1 yields no error. -/
theorem compile_error_contains_source_check :
    (loadShader GL_VERTEX_SHADER "bad shader source" 0).2 =
      some ("Shader (" ++ "bad shader source" ++ ") did not compile.") ∧
    (loadShader GL_VERTEX_SHADER "bad shader source" 1).2 = none :=
  ⟨((compile_error_contains_source GL_VERTEX_SHADER "bad shader source" 0).1 rfl).1,
   (compile_error_contains_source GL_VERTEX_SHADER "bad shader source" 1).2 (by decide)⟩

/-- Claim C4, the code's actual behaviour at the divergence point: the
aspect argument of `glam.Perspective(45, 640/480, 1, 10)` is the Go integer
constant division `640/480 = 1`, not the window's width-to-height ratio
`4/3`; the other arguments are field of view 45, near 1, far 10, and the
matrix is computed once before the loop from these constants alone. -/
theorem perspective_aspect_is_one :
    perspectiveArgs = (45, goAspect, 1, 10) ∧
    goAspect = 1 ∧
    (640 : ℚ) / 480 = 4/3 ∧
    goAspect ≠ (640 : ℚ) / 480 := by
  refine ⟨rfl, by decide, by norm_num, by norm_num [goAspect]⟩

/-- Claim C5: the uploaded geometry is exactly four vertices in the
interleaved 2-position-float + 2-texture-coordinate-float format with a
16-byte stride, whose positions are the corners of the unit quad centered
at the origin; the index buffer is the strip `0,1,2,3` drawn as a
4-index triangle strip of unsigned shorts; and the uploaded byte sizes are
exactly `vertex_count × stride` and `index_count × index_width`. -/
theorem quad_geometry :
    vertices.length = 16 ∧
    numVertices = 4 ∧
    vertexStrideBytes = 16 ∧
    [position 0, position 1, position 2, position 3] =
      [(-1/2, -1/2), (1/2, -1/2), (-1/2, 1/2), (1/2, 1/2)] ∧
    [texCoord 0, texCoord 1, texCoord 2, texCoord 3] =
      [(0, 1), (1, 1), (0, 0), (1, 0)] ∧
    (position 1).1 - (position 0).1 = 1 ∧
    (position 2).2 - (position 0).2 = 1 ∧
    (position 0).1 + (position 1).1 + (position 2).1 + (position 3).1 = 0 ∧
    (position 0).2 + (position 1).2 + (position 2).2 + (position 3).2 = 0 ∧
    elements = [0, 1, 2, 3] ∧
    drawCall = (GL_TRIANGLE_STRIP, 4, GL_UNSIGNED_SHORT) ∧
    vboBytes = numVertices * vertexStrideBytes ∧
    eboBytes = elements.length * indexWidthBytes := by
  refine ⟨rfl, rfl, rfl, rfl, rfl, ?_, ?_, ?_, ?_, rfl, rfl, rfl, rfl⟩ <;>
    norm_num [position, vertices]

/-- Claim C6: if at the start of iteration `n` the loop is `Running` and a
quit key press (escape or Q) is among the events delivered by that
iteration's `glfw.PollEvents()`, then the loop is `ClosingRequested` at the
end of that same iteration, `Terminated` at the next condition check, and
the number of issued draw calls never grows past its value at the end of
iteration `n`. -/
theorem quit_key_closes_loop (events : Nat → List (Key × KeyAction)) (n : Nat)
    (hrun : phase (loopRun events initialState n) = LoopPhase.Running)
    (hquit : (Key.escape, KeyAction.press) ∈ events n ∨
             (Key.q, KeyAction.press) ∈ events n) :
    phase (loopRun events initialState (n + 1)) = LoopPhase.ClosingRequested ∧
    phase (loopRun events initialState (n + 2)) = LoopPhase.Terminated ∧
    ∀ m, n + 1 ≤ m →
      (loopRun events initialState m).draws =
        (loopRun events initialState (n + 1)).draws := by
  obtain ⟨hterm, hsc⟩ := (phase_running_iff _).mp hrun
  have hstep : loopRun events initialState (n + 1) =
      pollEvents (events n) (drawFrame (loopRun events initialState n)) := by
    show loopIter (events n) (loopRun events initialState n) = _
    exact loopIter_open _ _ hsc
  have hsc1 : (loopRun events initialState (n + 1)).shouldClose = true := by
    rw [hstep]
    exact pollEvents_quit _ _ hquit
  have hterm1 : (loopRun events initialState (n + 1)).terminated = false := by
    rw [hstep, pollEvents_terminated, drawFrame_terminated]
    exact hterm
  refine ⟨?_, ?_, ?_⟩
  · unfold phase
    rw [hterm1, hsc1]
    simp
  · have hfin : loopRun events initialState (n + 2) =
        { loopRun events initialState (n + 1) with terminated := true } := by
      show loopIter (events (n + 1)) (loopRun events initialState (n + 1)) = _
      exact loopIter_closed _ _ hsc1
    rw [hfin]
    unfold phase
    simp
  · intro m hm
    obtain ⟨d, rfl⟩ : ∃ d, m = (n + 1) + d := ⟨m - (n + 1), (Nat.add_sub_cancel' hm).symm⟩
    exact (loopRun_frozen events initialState (n + 1) hsc1 d).1

/-- Witness for C6: with an escape press delivered during iteration 0's
poll, the loop is `ClosingRequested` after iteration 1, `Terminated` after
the next condition check, and issues no draw call after iteration 1. -/
theorem quit_key_closes_loop_check :
    phase (loopRun quitAtZero initialState 1) = LoopPhase.ClosingRequested ∧
    phase (loopRun quitAtZero initialState 2) = LoopPhase.Terminated ∧
    (loopRun quitAtZero initialState 5).draws =
      (loopRun quitAtZero initialState 1).draws := by
  have h := quit_key_closes_loop quitAtZero 0 (by decide) (by decide)
  exact ⟨h.1, h.2.1, h.2.2 5 (by norm_num)⟩

/-- Claim C7: pressing R twice returns the rotation-enabled flag to its
original value, a single press flips it, and the toggle takes effect on the
next tick: after a toggle, the next tick advances the accumulator exactly
when the original flag was false. -/
theorem toggle_rotation_pair (s : GlobalState) :
    (keyCallback Key.r KeyAction.press
        (keyCallback Key.r KeyAction.press s)).rotate = s.rotate ∧
    (keyCallback Key.r KeyAction.press s).rotate = !s.rotate ∧
    (tick (keyCallback Key.r KeyAction.press s)).spinCount =
      (if s.rotate then s.spinCount else s.spinCount + 1/2000) := by
  cases hr : s.rotate <;> simp [keyCallback, tick, hr]

/-- Claim C8: the texture-setup block performs, independently for texture
unit `gl.TEXTURE0` and texture unit `gl.TEXTURE1`, exactly the command
sequence: generate a texture object, activate the target unit, bind to the
2-D texture target, upload mip level 0 with RGBA internal and source format
and unsigned-byte component type, and set the minification and
magnification filters to linear (the two units' enums being consecutive
unit indices). -/
theorem texture_setup_per_unit (w1 h1 w2 h2 : Int) :
    loadTextureTrace w1 h1 GL_TEXTURE0 =
      [GLCmd.genTexture, GLCmd.activeTexture GL_TEXTURE0, GLCmd.bindTexture2D,
       GLCmd.texImage2D 0 GL_RGBA w1 h1 0 GL_RGBA GL_UNSIGNED_BYTE] ∧
    loadTextureTrace w2 h2 GL_TEXTURE1 =
      [GLCmd.genTexture, GLCmd.activeTexture GL_TEXTURE1, GLCmd.bindTexture2D,
       GLCmd.texImage2D 0 GL_RGBA w2 h2 0 GL_RGBA GL_UNSIGNED_BYTE] ∧
    textureSetupTrace w1 h1 w2 h2 =
      (loadTextureTrace w1 h1 GL_TEXTURE0 ++
       [GLCmd.texParameteri GL_TEXTURE_2D GL_TEXTURE_MIN_FILTER GL_LINEAR,
        GLCmd.texParameteri GL_TEXTURE_2D GL_TEXTURE_MAG_FILTER GL_LINEAR]) ++
      (loadTextureTrace w2 h2 GL_TEXTURE1 ++
       [GLCmd.texParameteri GL_TEXTURE_2D GL_TEXTURE_MIN_FILTER GL_LINEAR,
        GLCmd.texParameteri GL_TEXTURE_2D GL_TEXTURE_MAG_FILTER GL_LINEAR]) ∧
    GL_TEXTURE1 = GL_TEXTURE0 + 1 := by
  refine ⟨rfl, rfl, by simp [textureSetupTrace], rfl⟩

/-- Claim C9: the rotation uploaded on a frame uses the spin accumulator's
value before that frame's increment (the angle passed to `glam.Rotation` is
`spinCount * π` computed before `spinCount += 0.0005`); hence on the `N`-th
rotation-enabled frame starting from accumulator 0, the uploaded model
matrix rotates by `(N-1) * 0.0005 * π` and not `N * 0.0005 * π`. -/
theorem model_angle_lags (s : GlobalState) (N : Nat) (hN : 1 ≤ N) :
    (s.rotate = true →
      (tick s).modelMat = ModelMatrix.rotationZ s.spinCount ∧
      ((spinAngleCoeff (tick s).modelMat : ℚ) : ℝ) * Real.pi =
        (s.spinCount : ℝ) * Real.pi) ∧
    (drawFrame^[N] initialState).modelUploads.getLast? =
      some (ModelMatrix.rotationZ (((N : ℚ) - 1) * (1/2000))) ∧
    (((N : ℚ) - 1 : ℚ) : ℝ) * (1/2000) * Real.pi ≠
      (N : ℝ) * (1/2000) * Real.pi := by
  refine ⟨?_, ?_, ?_⟩
  · intro h
    rw [tick_of_rotate_true s h]
    exact ⟨rfl, rfl⟩
  · obtain ⟨-, -, hu⟩ := drawFrame_run N
    rw [hu]
    obtain ⟨M, rfl⟩ : ∃ M, N = M + 1 := ⟨N - 1, (Nat.succ_pred_eq_of_pos hN).symm⟩
    rw [uploadsUpTo_succ, List.getLast?_concat]
    simp only [Option.some.injEq, ModelMatrix.rotationZ.injEq]
    push_cast
    ring
  · intro heq
    have h1 := mul_right_cancel₀ Real.pi_ne_zero heq
    have h2 := mul_right_cancel₀ (by norm_num : (1/2000 : ℝ) ≠ 0) h1
    push_cast at h2
    linarith

/-- Witness for C9: on the second enabled frame from the initial state the
uploaded rotation has π-coefficient `(2-1) * (1/2000) = 1/2000`, and that
angle differs from `2 * 0.0005 * π`. -/
theorem model_angle_lags_check :
    ((tick initialState).modelMat = ModelMatrix.rotationZ initialState.spinCount ∧
      ((spinAngleCoeff (tick initialState).modelMat : ℚ) : ℝ) * Real.pi =
        (initialState.spinCount : ℝ) * Real.pi) ∧
    (drawFrame^[2] initialState).modelUploads.getLast? =
      some (ModelMatrix.rotationZ ((((2 : ℕ) : ℚ) - 1) * (1/2000))) ∧
    ((((2 : ℕ) : ℚ) - 1 : ℚ) : ℝ) * (1/2000) * Real.pi ≠
      ((2 : ℕ) : ℝ) * (1/2000) * Real.pi := by
  have h := model_angle_lags initialState 2 (by norm_num)
  exact ⟨h.1 rfl, h.2⟩

/-- Claim C10: on a frame with rotation disabled the model matrix keeps
exactly its previous value yet is still uploaded to the `model` uniform
that frame; and if rotation is disabled from the start, the model matrix
stays at its initial `glam.Identity()` over any number of frames. -/
theorem rotation_disabled_freezes_model (s : GlobalState) (N : Nat) :
    (s.rotate = false →
      (drawFrame s).modelMat = s.modelMat ∧
      (drawFrame s).modelUploads = s.modelUploads ++ [s.modelMat]) ∧
    (drawFrame^[N] { initialState with rotate := false }).modelMat =
      ModelMatrix.identity := by
  refine ⟨fun h => drawFrame_of_rotate_false s h, ?_⟩
  exact ((drawFrame_iterate_norot { initialState with rotate := false } rfl N).1).trans rfl

/-- Witness for C10: a concrete disabled frame keeps and re-uploads the
identity model matrix, and three disabled frames leave it at identity. -/
theorem rotation_disabled_freezes_model_check :
    ((drawFrame { initialState with rotate := false }).modelMat =
        { initialState with rotate := false }.modelMat ∧
      (drawFrame { initialState with rotate := false }).modelUploads =
        { initialState with rotate := false }.modelUploads ++
          [{ initialState with rotate := false }.modelMat]) ∧
    (drawFrame^[3] { initialState with rotate := false }).modelMat =
      ModelMatrix.identity := by
  have h := rotation_disabled_freezes_model { initialState with rotate := false } 3
  exact ⟨h.1 rfl, h.2⟩
